import Mathlib

/-!
Verification development for the HospAgent surge-risk and resource-forecasting
pipeline. The four engines under backend/engines (risk_engine.py,
forecast_engine.py, staffing_engine.py, supply_engine.py) are shallowly
embedded below: Python floats become rationals, Python int() truncation
becomes pytrunc, math.ceil becomes pyceil, and the Python modulo operator
(sign of the divisor) becomes Int.fmod. Wall-clock state (datetime.now) and
the interpreter string hash are passed in as explicit parameters. Free-text
fields that no claim touches (timestamps, contributing-factor sentences,
recommendation sentences, explanation sentences, the seasonal and epidemic
commentary records) are elided; every numeric field of the returned records
is embedded.
-/

namespace HospAgent

/-- Python int() applied to a float: truncation toward zero. -/
def pytrunc (x : ℚ) : ℤ := if 0 ≤ x then ⌊x⌋ else ⌈x⌉

/-- Python math.ceil on a float. -/
def pyceil (x : ℚ) : ℤ := ⌈x⌉

/-! ## Risk engine (backend/engines/risk_engine.py) -/

/-- Input dictionary of RiskEngine.calculate_comprehensive_risk, with the
documented .get defaults already resolved by the caller of the embedding
(the source resolves them with dict.get at lines 77-86). -/
structure RiskInputs where
  aqi : ℚ
  pm2_5 : ℚ
  pm10 : ℚ
  temperature : ℚ
  humidity : ℚ
  patientSlope6h : ℚ
  epidemicIndex : ℚ
  festivalNearby : Bool
  icuOccupancy : ℚ
  currentPatients : ℤ

/-- The dict.get defaults of calculate_comprehensive_risk lines 77-86. -/
def defaultRiskInputs : RiskInputs :=
  { aqi := 100, pm2_5 := 0, pm10 := 0, temperature := 25, humidity := 50
    patientSlope6h := 1, epidemicIndex := 0, festivalNearby := false
    icuOccupancy := 0.5, currentPatients := 150 }

/-- RiskEngine._calculate_aqi_risk with AQI_HIGH = 200, AQI_CRITICAL = 300. -/
def aqiRisk (aqi : ℚ) : ℚ :=
  if 300 ≤ aqi then 100
  else if 200 ≤ aqi then 60 + ((aqi - 200) / (300 - 200)) * 40
  else (aqi / 200) * 60

/-- RiskEngine._calculate_slope_risk. -/
def slopeRisk (slope : ℚ) : ℚ :=
  if 1.5 ≤ slope then 100
  else if 1.2 ≤ slope then 70
  else if 1.1 ≤ slope then 40
  else if slope ≤ 0.9 then 0
  else 20

/-- RiskEngine._calculate_epidemic_risk. -/
def epidemicRisk (index : ℚ) : ℚ := min 100 (index * 10)

/-- RiskEngine._calculate_icu_risk with ICU_HIGH = 0.70, ICU_CRITICAL = 0.85. -/
def icuRisk (occupancy : ℚ) : ℚ :=
  if 0.85 ≤ occupancy then 100
  else if 0.70 ≤ occupancy then 60 + ((occupancy - 0.70) / (0.85 - 0.70)) * 40
  else (occupancy / 0.70) * 60

/-- RiskEngine._calculate_weather_risk. -/
def weatherRisk (temp humidity : ℚ) : ℚ :=
  let tempRisk : ℚ :=
    if temp < 15 ∨ 38 < temp then 50
    else if temp < 18 ∨ 35 < temp then 30
    else 0
  let humidityRisk : ℚ :=
    if 85 < humidity ∨ humidity < 25 then 50
    else if 75 < humidity ∨ humidity < 35 then 20
    else 0
  min 100 (tempRisk + humidityRisk)

/-- One entry of the disease_factors list of the seasonal JSON config read by
RiskEngine.__init__ (the config file itself is not under src; its schema is
read off _calculate_seasonal_risk). -/
structure DiseaseFactor where
  months : List ℕ
  baseRisk : ℚ

/-- RiskEngine._calculate_seasonal_risk, parameterized by the loaded config
and by the current month (the source reads datetime.now().month): the summed
base risks of the diseases active in the month, capped at 1.0. -/
def seasonalRiskIndex (config : List DiseaseFactor) (month : ℕ) : ℚ :=
  min 1 (((config.filter (fun d => month ∈ d.months)).map DiseaseFactor.baseRisk).sum)

/-- RiskEngine._get_risk_level. -/
def riskLevel (score : ℚ) : String :=
  if 80 ≤ score then "CRITICAL"
  else if 60 ≤ score then "HIGH"
  else if 40 ≤ score then "MODERATE"
  else if 20 ≤ score then "LOW"
  else "MINIMAL"

/-- The breakdown mapping of the assessment returned by
calculate_comprehensive_risk (lines 140-147). -/
structure RiskBreakdown where
  aqi_risk : ℤ
  icu_risk : ℤ
  respiratory_risk : ℤ
  epidemic_risk : ℤ
  surge_risk : ℤ
  seasonal_risk : ℤ

/-- RiskEngine._calculate_department_risks. -/
structure DeptRisks where
  emergency : ℤ
  icu : ℤ
  pulmonology : ℤ
  pediatrics : ℤ
  generalWard : ℤ

def departmentRisks (aqi icu epidemic festival : ℚ) : DeptRisks :=
  { emergency := pytrunc (aqi * 0.3 + festival * 0.4 + epidemic * 0.3)
    icu := pytrunc icu
    pulmonology := pytrunc (aqi * 0.7 + epidemic * 0.3)
    pediatrics := pytrunc (epidemic * 0.5 + festival * 0.3 + aqi * 0.2)
    generalWard := pytrunc (festival * 0.4 + epidemic * 0.4 + aqi * 0.2) }

/-- RiskEngine._calculate_supply_risks. -/
structure SupplyRisks where
  oxygenCylinders : String
  n95Masks : String
  icuBeds : String
  ventilators : String

def supplyRisks (patients : ℤ) (aqi epidemic : ℚ) : SupplyRisks :=
  { oxygenCylinders := if 70 < aqi then "HIGH" else if 40 < aqi then "MEDIUM" else "LOW"
    n95Masks := if 60 < aqi ∨ 50 < epidemic then "HIGH" else if 30 < aqi then "MEDIUM" else "LOW"
    icuBeds := if 200 < patients then "HIGH" else if 150 < patients then "MEDIUM" else "LOW"
    ventilators := if 80 < aqi ∧ 60 < epidemic then "HIGH" else "MEDIUM" }

/-- RiskEngine._calculate_burnout_count. -/
def burnoutCount (patients : ℤ) (icuOcc : ℚ) : ℤ :=
  if 200 < patients ∧ 0.8 < icuOcc then 5
  else if 180 < patients ∧ 0.7 < icuOcc then 3
  else if 160 < patients ∨ 0.75 < icuOcc then 2
  else if 140 < patients then 1
  else 0

/-- The numeric and enumerated fields of the assessment dictionary returned
by calculate_comprehensive_risk. -/
structure RiskAssessment where
  index : ℤ
  level : String
  breakdown : RiskBreakdown
  departmentRisks : DeptRisks
  supplyRisks : SupplyRisks
  burnoutHighCount : ℤ

/-- RiskEngine.calculate_comprehensive_risk (lines 54-159). The seasonal
score comes from _calculate_seasonal_risk, so the engine is parameterized by
the loaded seasonal config and the current month. The weighted composite
uses WEIGHTS = aqi 0.20, patient_slope 0.15, epidemic 0.20, festival 0.15,
icu_pressure 0.15, seasonal 0.15; the weather score enters only the
respiratory_risk breakdown entry. -/
def calculateComprehensiveRisk (inputs : RiskInputs)
    (config : List DiseaseFactor) (month : ℕ) : RiskAssessment :=
  let aqiScore := aqiRisk inputs.aqi
  let slopeScore := slopeRisk inputs.patientSlope6h
  let epidemicScore := epidemicRisk inputs.epidemicIndex
  let festivalScore : ℚ := if inputs.festivalNearby then 100 else 0
  let icuScore := icuRisk inputs.icuOccupancy
  let weatherScore := weatherRisk inputs.temperature inputs.humidity
  let seasonalScore : ℚ := seasonalRiskIndex config month * 100
  let compositeRisk : ℚ :=
    0.20 * aqiScore + 0.15 * slopeScore + 0.20 * epidemicScore +
    0.15 * festivalScore + 0.15 * icuScore + 0.15 * seasonalScore
  { index := pytrunc compositeRisk
    level := riskLevel compositeRisk
    breakdown :=
      { aqi_risk := pytrunc aqiScore
        icu_risk := pytrunc icuScore
        respiratory_risk := pytrunc ((aqiScore + weatherScore) / 2)
        epidemic_risk := pytrunc epidemicScore
        surge_risk := pytrunc slopeScore
        seasonal_risk := pytrunc seasonalScore }
    departmentRisks := departmentRisks aqiScore icuScore epidemicScore festivalScore
    supplyRisks := supplyRisks inputs.currentPatients aqiScore epidemicScore
    burnoutHighCount := burnoutCount inputs.currentPatients inputs.icuOccupancy }

/-! ## Staffing engine (backend/engines/staffing_engine.py) -/

/-- The single staffing-plan dictionary produced by
StaffingEngine.recommend_staffing (lines 98-118), with the icu/er/general
breakdown flattened into named fields. -/
structure StaffingPlan where
  doctors : ℤ
  nurses : ℤ
  support : ℤ
  risk : ℤ
  icuDoctors : ℤ
  icuNurses : ℤ
  erDoctors : ℤ
  erNurses : ℤ
  generalDoctors : ℤ
  generalNurses : ℤ
  notes : List String

/-- The er_multiplier computation of recommend_staffing lines 54-63. -/
def erMultiplier (aqiLevel epidemicIndex : ℚ) : ℚ :=
  let base : ℚ := if 300 < aqiLevel then 1.5 else if 200 < aqiLevel then 1.3 else 1
  if 7 < epidemicIndex then base * 1.3
  else if 4 < epidemicIndex then base * 1.15
  else base

/-- StaffingEngine._calculate_staffing_risk. -/
def staffingRisk (patients : ℤ) (icuRiskScore epidemicIndex aqiLevel : ℚ) : ℤ :=
  let baseRisk : ℚ :=
    if 250 < patients then 90
    else if 200 < patients then 70
    else if 150 < patients then 50
    else 30
  let icuAdjustment := (icuRiskScore - 50) * 0.3
  let epidemicAdjustment := epidemicIndex * 2
  let aqiAdjustment : ℚ := if 300 < aqiLevel then 15 else if 200 < aqiLevel then 10 else 0
  pytrunc (min 100 (max 0 (baseRisk + icuAdjustment + epidemicAdjustment + aqiAdjustment)))

/-- StaffingEngine._generate_staffing_notes. -/
def staffingNotes (risk totalPatients icuPatients erPatients : ℤ) : List String :=
  let tier : List String :=
    if 80 ≤ risk then
      ["CRITICAL: Call in additional staff immediately",
       "Consider activating disaster protocol"]
    else if 60 ≤ risk then
      ["HIGH PRESSURE: Increase staff on next shift",
       "Prepare for potential surge"]
    else if 40 ≤ risk then
      ["MODERATE: Monitor staffing levels closely"]
    else
      ["Normal staffing levels adequate"]
  let icuNote : List String :=
    if 15 < icuPatients then
      ["ICU at capacity (" ++ toString icuPatients ++ " patients) - prioritize critical care staff"]
    else []
  let erNote : List String :=
    if 50 < erPatients then
      ["ER surge expected (" ++ toString erPatients ++ " patients) - reinforce ER team"]
    else []
  let _ := totalPatients
  tier ++ icuNote ++ erNote

/-- StaffingEngine.recommend_staffing (lines 28-120). The respiratory_cases
argument is accepted by the source signature but never read. The source
wraps the single plan in a one-element list; the list wrapper is
recommendStaffing below. -/
def staffingPlanOf (predictedPatientsToday : ℤ)
    (icuRiskScore epidemicIndex aqiLevel : ℚ) (respiratoryCases : ℤ) : StaffingPlan :=
  let _ := respiratoryCases
  let icuPatients := pytrunc ((predictedPatientsToday : ℚ) * (icuRiskScore / 100) * 0.15)
  let erPatients := pytrunc ((predictedPatientsToday : ℚ) * 0.3 * erMultiplier aqiLevel epidemicIndex)
  let generalPatients := predictedPatientsToday - icuPatients - erPatients
  let icuDoctors := max 2 (pytrunc ((icuPatients : ℚ) / 3) + 1)
  let icuNurses := max 3 (pytrunc ((icuPatients : ℚ) / 2) + 1)
  let erDoctors := max 3 (pytrunc ((erPatients : ℚ) / 10) + 1)
  let erNurses := max 5 (pytrunc ((erPatients : ℚ) / 5) + 1)
  let generalDoctors := max 4 (pytrunc ((generalPatients : ℚ) / 15))
  let generalNurses := max 8 (pytrunc ((generalPatients : ℚ) / 6))
  let riskScore := staffingRisk predictedPatientsToday icuRiskScore epidemicIndex aqiLevel
  { doctors := icuDoctors + erDoctors + generalDoctors
    nurses := icuNurses + erNurses + generalNurses
    support := max 10 (pytrunc ((predictedPatientsToday : ℚ) / 20))
    risk := riskScore
    icuDoctors := icuDoctors
    icuNurses := icuNurses
    erDoctors := erDoctors
    erNurses := erNurses
    generalDoctors := generalDoctors
    generalNurses := generalNurses
    notes := staffingNotes riskScore predictedPatientsToday icuPatients erPatients }

/-- The one-element list returned by recommend_staffing. -/
def recommendStaffing (predictedPatientsToday : ℤ)
    (icuRiskScore epidemicIndex aqiLevel : ℚ) (respiratoryCases : ℤ) : List StaffingPlan :=
  [staffingPlanOf predictedPatientsToday icuRiskScore epidemicIndex aqiLevel respiratoryCases]

/-! ## Supply engine (backend/engines/supply_engine.py) -/

/-- The two fields recommend_supplies reads off the first forecast day:
total_patients and breakdown.respiratory. -/
structure SupplyForecastDay where
  totalPatients : ℤ
  respiratory : ℤ

/-- One supply requirement dictionary. The default list returned on an empty
forecast carries no notes key, so notes is an Option. -/
structure SupplyRequirement where
  item : String
  required : ℤ
  status : String
  priority : String
  notes : Option String
deriving DecidableEq

/-- SupplyEngine._get_default_supplies. -/
def defaultSupplies : List SupplyRequirement :=
  [{ item := "Oxygen Cylinders", required := 30, status := "OK", priority := "MEDIUM", notes := none },
   { item := "N95 Masks", required := 200, status := "OK", priority := "MEDIUM", notes := none },
   { item := "IV Fluids", required := 100, status := "OK", priority := "MEDIUM", notes := none },
   { item := "Nebulizers", required := 15, status := "OK", priority := "LOW", notes := none },
   { item := "PPE Kits", required := 50, status := "OK", priority := "LOW", notes := none }]

/-- Lookup in the current_stock dictionary with Python dict.get default 0. -/
def stockLookup (stock : List (String × ℤ)) (key : String) : ℤ :=
  match stock.find? (fun p => p.1 == key) with
  | some p => p.2
  | none => 0

/-- SupplyEngine._get_status. A missing stock dictionary and an empty one are
both falsy in Python, so both take the demo-band branch. -/
def getStatus (itemKey : String) (required : ℤ)
    (currentStock : Option (List (String × ℤ))) : String :=
  match currentStock with
  | none =>
    if 300 < required then "LOW" else if 200 < required then "MEDIUM" else "OK"
  | some [] =>
    if 300 < required then "LOW" else if 200 < required then "MEDIUM" else "OK"
  | some stock =>
    let current := stockLookup stock itemKey
    if (required : ℚ) * 1.5 ≤ (current : ℚ) then "OK"
    else if required ≤ current then "MEDIUM"
    else "LOW"

/-- SupplyEngine._generate_supply_notes. -/
def supplyNotes (item status priority : String) (festival : Bool) : String :=
  if status == "LOW" then
    if priority == "HIGH" then "URGENT: Order " ++ item ++ " immediately"
    else "Order " ++ item ++ " within 24 hours"
  else if status == "MEDIUM" then
    if festival then "Restock " ++ item ++ " before festival surge"
    else "Monitor " ++ item ++ " levels"
  else "Stock adequate"

/-- The combined safety and festival multiplier of recommend_supplies
lines 60-62 (SAFETY_MULTIPLIER 1.2, FESTIVAL_MULTIPLIER 1.5). -/
def supplyMultiplier (festivalWindow : Bool) : ℚ :=
  if festivalWindow then 1.2 * 1.5 else 1.2

/-- The AQI adjustment of recommend_supplies lines 65-71. -/
def aqiMultiplier (aqiLevel : ℚ) : ℚ :=
  if 300 < aqiLevel then 1.8
  else if 200 < aqiLevel then 1.4
  else if 150 < aqiLevel then 1.2
  else 1

/-- The epidemic adjustment of recommend_supplies line 74. -/
def epidemicMultiplier (epidemicIndex : ℚ) : ℚ := 1 + epidemicIndex * 0.05

/-- SupplyEngine.recommend_supplies (lines 29-146), with base rates
OXYGEN_PER_RESPIRATORY 2.5, MASKS_PER_PATIENT 3, IV_FLUIDS_PER_PATIENT 0.8,
NEBULIZERS_PER_RESPIRATORY 0.5. -/
def recommendSupplies (forecast : List SupplyForecastDay)
    (currentStock : Option (List (String × ℤ))) (festivalWindow : Bool)
    (aqiLevel epidemicIndex : ℚ) : List SupplyRequirement :=
  match forecast with
  | [] => defaultSupplies
  | today :: _ =>
    let totalPatients := today.totalPatients
    let respiratory := today.respiratory
    let multiplier := supplyMultiplier festivalWindow
    let aqiMult := aqiMultiplier aqiLevel
    let epidemicMult := epidemicMultiplier epidemicIndex
    let oxygenRequired := pytrunc ((respiratory : ℚ) * 2.5 * multiplier * aqiMult)
    let masksRequired := pytrunc ((totalPatients : ℚ) * 3 * multiplier * aqiMult)
    let ivFluidsRequired := pytrunc ((totalPatients : ℚ) * 0.8 * multiplier * epidemicMult)
    let nebulizersRequired := pytrunc ((respiratory : ℚ) * 0.5 * multiplier * aqiMult)
    let ppeRequired := pytrunc ((totalPatients : ℚ) * 0.5 * epidemicMult)
    let oxygenStatus := getStatus "oxygen" oxygenRequired currentStock
    let masksStatus := getStatus "masks" masksRequired currentStock
    let ivStatus := getStatus "iv_fluids" ivFluidsRequired currentStock
    let nebStatus := getStatus "nebulizers" nebulizersRequired currentStock
    let ppeStatus := getStatus "ppe" ppeRequired currentStock
    let oxygenPriority := if 200 < aqiLevel then "HIGH" else "MEDIUM"
    let masksPriority := if 200 < aqiLevel ∨ 5 < epidemicIndex then "HIGH" else "MEDIUM"
    let ivPriority := "MEDIUM"
    let nebPriority := if 50 < respiratory then "HIGH" else "MEDIUM"
    let ppePriority := if 7 < epidemicIndex then "HIGH" else "LOW"
    [{ item := "Oxygen Cylinders", required := oxygenRequired, status := oxygenStatus,
       priority := oxygenPriority,
       notes := some (supplyNotes "Oxygen Cylinders" oxygenStatus oxygenPriority festivalWindow) },
     { item := "N95 Masks", required := masksRequired, status := masksStatus,
       priority := masksPriority,
       notes := some (supplyNotes "N95 Masks" masksStatus masksPriority festivalWindow) },
     { item := "IV Fluids", required := ivFluidsRequired, status := ivStatus,
       priority := ivPriority,
       notes := some (supplyNotes "IV Fluids" ivStatus ivPriority festivalWindow) },
     { item := "Nebulizers", required := nebulizersRequired, status := nebStatus,
       priority := nebPriority,
       notes := some (supplyNotes "Nebulizers" nebStatus nebPriority festivalWindow) },
     { item := "PPE Kits", required := ppeRequired, status := ppeStatus,
       priority := ppePriority,
       notes := some (supplyNotes "PPE Kits" ppeStatus ppePriority festivalWindow) }]

/-! ## Forecast engine (backend/engines/forecast_engine.py)

The source derives each target day from datetime.now() + timedelta(days=d)
and keys the pseudo-variance on the interpreter string hash of the date
string. Both ambient sources are explicit parameters here: a clock maps the
day offset to the date string, the weekday (Monday = 0) and an absolute day
number used for festival distances, and hashFn stands for the salted Python
hash of a string. -/

/-- One festival dictionary from the context. The date field already holds
the day number obtained from datetime.fromisoformat; none models a date
string the source fails to parse (the try/except skips that entry). -/
structure Festival where
  fdate : Option ℤ
  highRisk : Bool

/-- Context dictionary of ForecastEngine.generate_forecast with the dict.get
defaults resolved by the caller of the embedding. The current_load entry is
extracted by the source (line 57) but never used. -/
structure ForecastContext where
  aqi : ℚ
  temperature : ℚ
  humidity : ℚ
  epidemicSeverity : ℚ
  patientSlope24h : ℚ
  festivals : List Festival
  currentLoad : ℤ

/-- What the source reads from datetime.now() + timedelta(days=offset). -/
structure DateInfo where
  dateStr : String
  weekday : Fin 7
  dayNum : ℤ

/-- ForecastEngine.DOW_FACTORS (Monday = 0). -/
def dowFactor : Fin 7 → ℚ
  | 0 => 1.15
  | 1 => 1.05
  | 2 => 1.00
  | 3 => 1.00
  | 4 => 1.10
  | 5 => 0.85
  | 6 => 0.80

/-- ForecastEngine._calculate_aqi_factor. -/
def aqiFactor (aqi : ℚ) : ℚ :=
  if 300 ≤ aqi then 1.5
  else if 200 ≤ aqi then 1.3
  else if 150 ≤ aqi then 1.15
  else if 100 ≤ aqi then 1.05
  else 1.0

/-- ForecastEngine._calculate_weather_factor. -/
def weatherFactor (temp humidity : ℚ) : ℚ :=
  let tempFactor : ℚ :=
    if 38 < temp ∨ temp < 15 then 1.2
    else if 35 < temp ∨ temp < 18 then 1.1
    else 1
  let humidityFactor : ℚ := if 85 < humidity ∨ humidity < 25 then 1.1 else 1
  tempFactor * humidityFactor

/-- ForecastEngine._calculate_epidemic_factor. -/
def epidemicFactor (severity : ℚ) : ℚ := 1.0 + severity * 0.08

/-- ForecastEngine._calculate_festival_factor: the loop returns at the first
festival that parses, is flagged high_risk and lies within 3 days of the
target date; entries whose date fails to parse are skipped by the except. -/
def festivalFactor (targetDate : ℤ) : List Festival → ℚ
  | [] => 1.0
  | f :: rest =>
    match f.fdate with
    | none => festivalFactor targetDate rest
    | some d =>
      if f.highRisk then
        let daysDiff := (d - targetDate).natAbs
        if daysDiff = 0 then 1.8
        else if daysDiff = 1 then 1.4
        else if daysDiff ≤ 3 then 1.2
        else festivalFactor targetDate rest
      else festivalFactor targetDate rest

/-- ForecastEngine._calculate_momentum_factor. -/
def momentumFactor (slope : ℚ) (dayOffset : ℕ) : ℚ :=
  1.0 + (slope - 1.0) * (0.85 : ℚ) ^ dayOffset

/-- The seven-category patient breakdown dictionary. -/
structure PatientBreakdown where
  respiratory : ℤ
  trauma : ℤ
  viralInfectious : ℤ
  cardiac : ℤ
  pediatric : ℤ
  icuCandidates : ℤ
  other : ℤ

/-- ForecastEngine._calculate_breakdown (lines 178-219). The other entry is
total minus the truncation of total times the summed adjusted percentages
divided by themselves, exactly as the source writes it. -/
def calculateBreakdown (total : ℤ) (aqi epidemic : ℚ) (isFestival : Bool) :
    PatientBreakdown :=
  let respiratoryPct : ℚ :=
    0.15 + (if 200 < aqi then 0.15 else if 150 < aqi then 0.08 else 0)
  let traumaPct : ℚ := 0.10 + (if isFestival then 0.15 else 0)
  let viralPct : ℚ := 0.12 + (if 5 < epidemic then 0.15 else 0)
  let cardiacPct : ℚ := 0.08 + (if isFestival then 0.05 else 0)
  let pediatricPct : ℚ := 0.20
  let icuCandidatesPct : ℚ := 0.05 + (if 5 < epidemic then 0.03 else 0)
  let totalPct := respiratoryPct + traumaPct + viralPct + cardiacPct +
    pediatricPct + icuCandidatesPct
  { respiratory := pytrunc ((total : ℚ) * (respiratoryPct / totalPct))
    trauma := pytrunc ((total : ℚ) * (traumaPct / totalPct))
    viralInfectious := pytrunc ((total : ℚ) * (viralPct / totalPct))
    cardiac := pytrunc ((total : ℚ) * (cardiacPct / totalPct))
    pediatric := pytrunc ((total : ℚ) * (pediatricPct / totalPct))
    icuCandidates := pytrunc ((total : ℚ) * (icuCandidatesPct / totalPct))
    other := total - pytrunc ((total : ℚ) *
      ((respiratoryPct + traumaPct + viralPct + cardiacPct +
        pediatricPct + icuCandidatesPct) / totalPct)) }

/-- The staff_demand dictionary of a forecast day. -/
structure StaffDemand where
  doctors : ℤ
  nurses : ℤ
  supportStaff : ℤ
  icuSpecialists : ℤ

/-- ForecastEngine._calculate_staff_demand with PATIENTS_PER_DOCTOR 15,
PATIENTS_PER_NURSE 6, PATIENTS_PER_SUPPORT 20. -/
def calculateStaffDemand (total : ℤ) (breakdown : PatientBreakdown) : StaffDemand :=
  let icuPatients := breakdown.icuCandidates
  let icuDoctors := pyceil ((icuPatients : ℚ) / 3)
  let icuNurses := pyceil ((icuPatients : ℚ) / 2)
  let generalPatients := total - icuPatients
  let generalDoctors := pyceil ((generalPatients : ℚ) / 15)
  let generalNurses := pyceil ((generalPatients : ℚ) / 6)
  { doctors := generalDoctors + icuDoctors
    nurses := generalNurses + icuNurses
    supportStaff := pyceil ((total : ℚ) / 20)
    icuSpecialists := icuDoctors }

/-- ForecastEngine._calculate_confidence. -/
def calculateConfidence (dayOffset : ℕ) (epidemic festivalFactorValue : ℚ) : ℚ :=
  let baseConfidence : ℚ := 95 - (dayOffset : ℚ) * 3
  let afterEpidemic : ℚ :=
    if 7 < epidemic then baseConfidence - 10
    else if 4 < epidemic then baseConfidence - 5
    else baseConfidence
  let afterFestival : ℚ :=
    if 1.5 < festivalFactorValue then afterEpidemic - 8
    else if 1.2 < festivalFactorValue then afterEpidemic - 4
    else afterEpidemic
  max 60 (min 95 afterFestival)

/-- ForecastEngine._generate_alerts. -/
def generateAlerts (total : ℤ) (breakdown : PatientBreakdown)
    (festivalFactorValue : ℚ) : List String :=
  (if 250 < total then ["SURGE ALERT: Predicted load exceeds capacity"] else []) ++
  (if 60 < breakdown.respiratory then
    ["High respiratory case volume - Check oxygen supply"] else []) ++
  (if 15 < breakdown.icuCandidates then
    ["ICU capacity warning - Prepare additional beds"] else []) ++
  (if 1.5 < festivalFactorValue then
    ["Festival surge - Trauma team on standby"] else [])

/-- One forecast-day dictionary. The factors entries are stored unrounded;
the source rounds them to 2 decimals purely for display. -/
structure ForecastDay where
  date : String
  totalPatients : ℤ
  confidence : ℚ
  breakdown : PatientBreakdown
  staffDemand : StaffDemand
  dowImpact : ℚ
  aqiImpact : ℚ
  weatherImpact : ℚ
  epidemicImpact : ℚ
  festivalImpact : ℚ
  alerts : List String

/-- The deterministic part of one loop iteration of generate_forecast: the
predicted total before the pseudo-variance is applied (lines 75-83). -/
def preVarianceTotal (context : ForecastContext) (dayOffset : ℕ) (day : DateInfo) : ℤ :=
  pytrunc (150 * dowFactor day.weekday * aqiFactor context.aqi *
    weatherFactor context.temperature context.humidity *
    epidemicFactor context.epidemicSeverity *
    festivalFactor day.dayNum context.festivals *
    momentumFactor context.patientSlope24h dayOffset)

/-- One loop iteration of ForecastEngine.generate_forecast (lines 61-115).
Python evaluates hash(date_str) % (2 * variance), which raises
ZeroDivisionError when the modulus is zero; that raise is modeled by none.
For a nonzero modulus the Python % operator takes the sign of the divisor,
which is Int.fmod. -/
def dayForecast (context : ForecastContext) (hashFn : String → ℤ)
    (dayOffset : ℕ) (day : DateInfo) : Option ForecastDay :=
  let festivalFactorValue := festivalFactor day.dayNum context.festivals
  let predictedTotal := preVarianceTotal context dayOffset day
  let variance := pytrunc ((predictedTotal : ℚ) * 0.05)
  if 2 * variance = 0 then none
  else
    let totalPatients := predictedTotal +
      Int.fmod (hashFn day.dateStr) (2 * variance) - variance
    let breakdown := calculateBreakdown totalPatients context.aqi
      context.epidemicSeverity (if 1.0 < festivalFactorValue then true else false)
    some
      { date := day.dateStr
        totalPatients := totalPatients
        confidence := calculateConfidence dayOffset context.epidemicSeverity festivalFactorValue
        breakdown := breakdown
        staffDemand := calculateStaffDemand totalPatients breakdown
        dowImpact := dowFactor day.weekday
        aqiImpact := aqiFactor context.aqi
        weatherImpact := weatherFactor context.temperature context.humidity
        epidemicImpact := epidemicFactor context.epidemicSeverity
        festivalImpact := festivalFactorValue
        alerts := generateAlerts totalPatients breakdown festivalFactorValue }

/-- ForecastEngine.generate_forecast: the whole call raises as soon as one
iteration raises, so the day results are sequenced through Option. -/
def generateForecast (days : ℕ) (context : ForecastContext)
    (hashFn : String → ℤ) (clock : ℕ → DateInfo) : Option (List ForecastDay) :=
  (List.range days).mapM (fun dayOffset => dayForecast context hashFn dayOffset (clock dayOffset))

/-! ## Spec-modelled comparison definitions and concrete inputs

Definitions below either restate wording of the spec for refinement
comparison (marked Modelled from the spec) or fix concrete inputs used by
the claim counterexamples and witnesses. -/

/-- Threshold classification of the integer risk index given by the spec and
by RiskEngine._get_risk_level read at integer points. -/
def levelOfIndex (n : ℤ) : String :=
  if 80 ≤ n then "CRITICAL"
  else if 60 ≤ n then "HIGH"
  else if 40 ≤ n then "MODERATE"
  else if 20 ≤ n then "LOW"
  else "MINIMAL"

/-- Modelled from the spec: the fixed-weight dot product of claim C1, in
which the sixth weighted sub-score is the additive temperature/humidity
penalty (the weather score), for comparison with the engine. -/
def specWeatherWeightedIndex (inputs : RiskInputs) : ℚ :=
  0.20 * aqiRisk inputs.aqi + 0.15 * slopeRisk inputs.patientSlope6h +
  0.20 * epidemicRisk inputs.epidemicIndex +
  0.15 * (if inputs.festivalNearby then 100 else 0) +
  0.15 * icuRisk inputs.icuOccupancy +
  0.15 * weatherRisk inputs.temperature inputs.humidity

/-- Context with a cold-wave temperature, all other fields at the source
defaults, used to separate the engine from the claimed formula. -/
def coldInputs : RiskInputs := { defaultRiskInputs with temperature := 0 }

/-- Context with a negative AQI, all other fields at the source defaults. -/
def negAqiInputs : RiskInputs := { defaultRiskInputs with aqi := -1000 }

/-- Constant stand-in for one fixed interpreter hash seed. -/
def hashZero : String → ℤ := fun _ => 0

/-- Constant stand-in for a second interpreter hash seed. -/
def hashOne : String → ℤ := fun _ => 1

/-- A Monday as day offset 0. -/
def day0 : DateInfo := { dateStr := "2026-10-12", weekday := ⟨0, by omega⟩, dayNum := 0 }

/-- The Tuesday after day0. -/
def day1 : DateInfo := { dateStr := "2026-10-13", weekday := ⟨1, by omega⟩, dayNum := 1 }

/-- Clock starting on the Monday day0; only offsets 0 and 1 are exercised. -/
def mondayClock : ℕ → DateInfo
  | 0 => day0
  | _ => day1

/-- Forecast context with every field at the source dict.get default. -/
def baselineContext : ForecastContext :=
  { aqi := 100, temperature := 25, humidity := 50, epidemicSeverity := 0,
    patientSlope24h := 1, festivals := [], currentLoad := 150 }

/-- Baseline context whose 24h patient slope has fallen to zero. -/
def zeroSlopeContext : ForecastContext := { baselineContext with patientSlope24h := 0 }

/-- Baseline context with a high-risk festival on day number 0. -/
def festivalTodayContext : ForecastContext :=
  { baselineContext with festivals := [{ fdate := some 0, highRisk := true }] }

/-- Modelled from the spec: the distance from the target date to the nearest
high-risk festival with a parseable date, if any. -/
def nearestHighRiskDistance (targetDate : ℤ) (festivals : List Festival) : Option ℕ :=
  (festivals.filterMap fun f =>
    match f.fdate with
    | some d => if f.highRisk then some ((d - targetDate).natAbs) else none
    | none => none).foldr
    (fun n acc => match acc with | none => some n | some m => some (min n m)) none

/-- Modelled from the spec: the festival factor determined by the nearest
high-risk festival, as claim C6 words it: same day 1.8, one day away 1.4,
within 3 days 1.2, otherwise 1.0. -/
def festivalFactorNearest (targetDate : ℤ) (festivals : List Festival) : ℚ :=
  match nearestHighRiskDistance targetDate festivals with
  | none => 1.0
  | some 0 => 1.8
  | some 1 => 1.4
  | some (n + 2) => if n + 2 ≤ 3 then 1.2 else 1.0

/-- A high-risk festival three days after the target, listed before a
high-risk festival on the target day itself. -/
def twoFestivals : List Festival :=
  [{ fdate := some 13, highRisk := true }, { fdate := some 10, highRisk := true }]

/-! ## Lemmas and claim theorems -/


theorem pytrunc_nonneg {x : ℚ} (h : 0 ≤ x) : 0 ≤ pytrunc x := by
  simp only [pytrunc, if_pos h]
  exact Int.floor_nonneg.mpr h

theorem le_pytrunc {n : ℤ} {x : ℚ} (h : (n : ℚ) ≤ x) : n ≤ pytrunc x := by
  unfold pytrunc
  split_ifs with h0
  · exact Int.le_floor.mpr h
  · calc n = ⌈(n : ℚ)⌉ := (Int.ceil_intCast n).symm
      _ ≤ ⌈x⌉ := Int.ceil_le_ceil h

theorem pytrunc_le {n : ℤ} {x : ℚ} (h : x ≤ (n : ℚ)) : pytrunc x ≤ n := by
  unfold pytrunc
  split_ifs with h0
  · calc ⌊x⌋ ≤ ⌊(n : ℚ)⌋ := Int.floor_le_floor h
      _ = n := Int.floor_intCast n
  · exact Int.ceil_le.mpr h

theorem pytrunc_eq {x : ℚ} {n : ℤ} (h0 : 0 ≤ x) (h1 : (n : ℚ) ≤ x) (h2 : x < n + 1) :
    pytrunc x = n := by
  rw [pytrunc, if_pos h0]
  exact Int.floor_eq_iff.mpr ⟨h1, h2⟩

theorem pytrunc_eq_neg {x : ℚ} {n : ℤ} (h0 : ¬0 ≤ x) (h1 : (n : ℚ) - 1 < x) (h2 : x ≤ n) :
    pytrunc x = n := by
  rw [pytrunc, if_neg h0]
  exact Int.ceil_eq_iff.mpr ⟨h1, h2⟩

theorem pytrunc_mono {x y : ℚ} (h : x ≤ y) : pytrunc x ≤ pytrunc y := by
  unfold pytrunc
  split_ifs with hx hy hy
  · exact Int.floor_le_floor h
  · exact absurd (hx.trans h) hy
  · calc ⌈x⌉ ≤ 0 := Int.ceil_le.mpr (by exact_mod_cast le_of_not_le hx)
      _ ≤ ⌊y⌋ := Int.floor_nonneg.mpr hy
  · exact Int.ceil_le_ceil h

theorem aqiRisk_nonneg {a : ℚ} (h : 0 ≤ a) : 0 ≤ aqiRisk a := by
  unfold aqiRisk
  split_ifs with h1 h2
  · norm_num
  · nlinarith
  · positivity

theorem aqiRisk_le_100 (a : ℚ) : aqiRisk a ≤ 100 := by
  unfold aqiRisk
  split_ifs with h1 h2
  · norm_num
  · have := lt_of_not_le h1
    linarith
  · have := lt_of_not_le h2
    linarith

theorem slopeRisk_nonneg (s : ℚ) : 0 ≤ slopeRisk s := by
  unfold slopeRisk
  split_ifs <;> norm_num

theorem slopeRisk_le_100 (s : ℚ) : slopeRisk s ≤ 100 := by
  unfold slopeRisk
  split_ifs <;> norm_num

theorem epidemicRisk_nonneg {e : ℚ} (h : 0 ≤ e) : 0 ≤ epidemicRisk e := by
  unfold epidemicRisk
  have : (0 : ℚ) ≤ e * 10 := by positivity
  exact le_min (by norm_num) this

theorem epidemicRisk_le_100 (e : ℚ) : epidemicRisk e ≤ 100 :=
  min_le_left _ _

theorem icuRisk_nonneg {o : ℚ} (h : 0 ≤ o) : 0 ≤ icuRisk o := by
  unfold icuRisk
  split_ifs with h1 h2
  · norm_num
  · have h3 : (0 : ℚ) ≤ o - 0.70 := by linarith
    have h4 : (0 : ℚ) ≤ (o - 0.70) / (0.85 - 0.70) * 40 :=
      mul_nonneg (div_nonneg h3 (by norm_num)) (by norm_num)
    linarith
  · positivity

theorem icuRisk_le_100 (o : ℚ) : icuRisk o ≤ 100 := by
  unfold icuRisk
  split_ifs with h1 h2
  · norm_num
  · have h3 : (o - 0.70) / (0.85 - 0.70) ≤ 1 := by
      rw [div_le_one (by norm_num)]
      have := lt_of_not_le h1
      linarith
    have h4 : (o - 0.70) / (0.85 - 0.70) * 40 ≤ 1 * 40 :=
      mul_le_mul_of_nonneg_right h3 (by norm_num)
    linarith
  · have h3 : o / 0.70 ≤ 1 := by
      rw [div_le_one (by norm_num)]
      have := lt_of_not_le h2
      linarith
    have h4 : o / 0.70 * 60 ≤ 1 * 60 := mul_le_mul_of_nonneg_right h3 (by norm_num)
    linarith

theorem seasonalRiskIndex_nonneg {config : List DiseaseFactor} (month : ℕ)
    (h : ∀ d ∈ config, 0 ≤ d.baseRisk) : 0 ≤ seasonalRiskIndex config month := by
  unfold seasonalRiskIndex
  refine le_min (by norm_num) (List.sum_nonneg ?_)
  intro x hx
  obtain ⟨d, hd, rfl⟩ := List.mem_map.mp hx
  exact h d (List.mem_filter.mp hd).1

theorem seasonalRiskIndex_le_one (config : List DiseaseFactor) (month : ℕ) :
    seasonalRiskIndex config month ≤ 1 :=
  min_le_left _ _

theorem riskLevel_eq_levelOfIndex {x : ℚ} (hx : 0 ≤ x) :
    riskLevel x = levelOfIndex (pytrunc x) := by
  have e : pytrunc x = ⌊x⌋ := if_pos hx
  rw [e]
  unfold riskLevel levelOfIndex
  have key : ∀ n : ℤ, n ≤ ⌊x⌋ ↔ (n : ℚ) ≤ x := fun n => by
    rw [Int.le_floor]
  by_cases h80 : (80 : ℚ) ≤ x
  · have i80 : (80 : ℤ) ≤ ⌊x⌋ := (key 80).mpr (by exact_mod_cast h80)
    simp [h80, i80]
  · have i80 : ¬(80 : ℤ) ≤ ⌊x⌋ := fun hc => h80 (by exact_mod_cast (key 80).mp hc)
    by_cases h60 : (60 : ℚ) ≤ x
    · have i60 : (60 : ℤ) ≤ ⌊x⌋ := (key 60).mpr (by exact_mod_cast h60)
      simp [h80, i80, h60, i60]
    · have i60 : ¬(60 : ℤ) ≤ ⌊x⌋ := fun hc => h60 (by exact_mod_cast (key 60).mp hc)
      by_cases h40 : (40 : ℚ) ≤ x
      · have i40 : (40 : ℤ) ≤ ⌊x⌋ := (key 40).mpr (by exact_mod_cast h40)
        simp [h80, i80, h60, i60, h40, i40]
      · have i40 : ¬(40 : ℤ) ≤ ⌊x⌋ := fun hc => h40 (by exact_mod_cast (key 40).mp hc)
        by_cases h20 : (20 : ℚ) ≤ x
        · have i20 : (20 : ℤ) ≤ ⌊x⌋ := (key 20).mpr (by exact_mod_cast h20)
          simp [h80, i80, h60, i60, h40, i40, h20, i20]
        · have i20 : ¬(20 : ℤ) ≤ ⌊x⌋ := fun hc => h20 (by exact_mod_cast (key 20).mp hc)
          simp [h80, i80, h60, i60, h40, i40, h20, i20]

/-- Claim C1 counterexample: with every input at the source default except
temperature 0 (and an empty seasonal config), the engine returns index 15,
while the fixed-weight dot product claimed by C1, whose sixth sub-score is
the additive temperature/humidity penalty, evaluates to 321/14; the returned
index is not that dot product, so C1 as stated fails. -/
theorem c1_counterexample :
    (calculateComprehensiveRisk coldInputs [] 1).index = 15 ∧
    ((calculateComprehensiveRisk coldInputs [] 1).index : ℚ) ≠
      specWeatherWeightedIndex coldInputs := by
  have h15 : (calculateComprehensiveRisk coldInputs [] 1).index = 15 := by
    show pytrunc _ = 15
    refine pytrunc_eq ?_ ?_ ?_ <;>
      norm_num [coldInputs, defaultRiskInputs, aqiRisk, slopeRisk, epidemicRisk,
        icuRisk, seasonalRiskIndex, min_def]
  refine ⟨h15, ?_⟩
  rw [h15]
  norm_num [specWeatherWeightedIndex, coldInputs, defaultRiskInputs, aqiRisk,
    slopeRisk, epidemicRisk, icuRisk, weatherRisk, min_def]

/-- Claim C1 (amended): the composite index is the int-truncation of the
fixed-weight dot product 0.20 aqi + 0.15 slope + 0.20 epidemic +
0.15 festival + 0.15 icu + 0.15 seasonal, where the seasonal sub-score is
100 times the config-and-month seasonal disease index, not the
temperature/humidity penalty; the weather penalty enters the returned
record only through the respiratory_risk breakdown entry, and the breakdown
carries no festival entry at all. -/
theorem c1_index_is_engine_dot_product (inputs : RiskInputs)
    (config : List DiseaseFactor) (month : ℕ) :
    (calculateComprehensiveRisk inputs config month).index =
      pytrunc (0.20 * aqiRisk inputs.aqi + 0.15 * slopeRisk inputs.patientSlope6h +
        0.20 * epidemicRisk inputs.epidemicIndex +
        0.15 * (if inputs.festivalNearby then 100 else 0) +
        0.15 * icuRisk inputs.icuOccupancy +
        0.15 * (seasonalRiskIndex config month * 100)) ∧
    (calculateComprehensiveRisk inputs config month).breakdown.respiratory_risk =
      pytrunc ((aqiRisk inputs.aqi + weatherRisk inputs.temperature inputs.humidity) / 2) :=
  ⟨rfl, rfl⟩

/-- Claim C2 counterexample: with aqi -1000 and every other input at the
source default the returned index is -50: out-of-range numeric input is not
clamped and the index leaves [0, 100], so C2 as stated fails. -/
theorem c2_counterexample :
    (calculateComprehensiveRisk negAqiInputs [] 1).index = -50 ∧
    (calculateComprehensiveRisk negAqiInputs [] 1).index < 0 := by
  have hneg : (calculateComprehensiveRisk negAqiInputs [] 1).index = -50 := by
    show pytrunc _ = -50
    refine pytrunc_eq_neg ?_ ?_ ?_ <;>
      norm_num [negAqiInputs, defaultRiskInputs, aqiRisk, slopeRisk, epidemicRisk,
        icuRisk, seasonalRiskIndex, min_def]
  exact ⟨hneg, by rw [hneg]; norm_num⟩

/-- Claim C2 (amended): the engine never clamps its inputs, but whenever the
inputs lie in their declared domains (aqi, epidemic index and ICU occupancy
nonnegative, seasonal config base risks nonnegative) the returned index lies
in [0, 100] and the returned level is exactly the monotone threshold
function of the index (80 CRITICAL / 60 HIGH / 40 MODERATE / 20 LOW /
otherwise MINIMAL). -/
theorem c2_index_range_and_level (inputs : RiskInputs)
    (config : List DiseaseFactor) (month : ℕ)
    (haqi : 0 ≤ inputs.aqi) (hepi : 0 ≤ inputs.epidemicIndex)
    (hicu : 0 ≤ inputs.icuOccupancy)
    (hconfig : ∀ d ∈ config, 0 ≤ d.baseRisk) :
    0 ≤ (calculateComprehensiveRisk inputs config month).index ∧
    (calculateComprehensiveRisk inputs config month).index ≤ 100 ∧
    (calculateComprehensiveRisk inputs config month).level =
      levelOfIndex (calculateComprehensiveRisk inputs config month).index := by
  have hA0 := aqiRisk_nonneg haqi
  have hA1 := aqiRisk_le_100 inputs.aqi
  have hS0 := slopeRisk_nonneg inputs.patientSlope6h
  have hS1 := slopeRisk_le_100 inputs.patientSlope6h
  have hE0 := epidemicRisk_nonneg hepi
  have hE1 := epidemicRisk_le_100 inputs.epidemicIndex
  have hI0 := icuRisk_nonneg hicu
  have hI1 := icuRisk_le_100 inputs.icuOccupancy
  have hF0 : (0 : ℚ) ≤ (if inputs.festivalNearby then 100 else 0) := by
    split_ifs <;> norm_num
  have hF1 : (if inputs.festivalNearby then (100 : ℚ) else 0) ≤ 100 := by
    split_ifs <;> norm_num
  have hsea0 := seasonalRiskIndex_nonneg month hconfig
  have hsea1 := seasonalRiskIndex_le_one config month
  have hC0 : 0 ≤ 0.20 * aqiRisk inputs.aqi + 0.15 * slopeRisk inputs.patientSlope6h +
      0.20 * epidemicRisk inputs.epidemicIndex +
      0.15 * (if inputs.festivalNearby then (100 : ℚ) else 0) +
      0.15 * icuRisk inputs.icuOccupancy +
      0.15 * (seasonalRiskIndex config month * 100) := by
    nlinarith
  have hC100 : 0.20 * aqiRisk inputs.aqi + 0.15 * slopeRisk inputs.patientSlope6h +
      0.20 * epidemicRisk inputs.epidemicIndex +
      0.15 * (if inputs.festivalNearby then (100 : ℚ) else 0) +
      0.15 * icuRisk inputs.icuOccupancy +
      0.15 * (seasonalRiskIndex config month * 100) ≤ 100 := by
    nlinarith
  refine ⟨pytrunc_nonneg hC0, pytrunc_le (by exact_mod_cast hC100), ?_⟩
  exact riskLevel_eq_levelOfIndex hC0

/-- Claim C2 witness: the amended theorem at the source default inputs and
an empty seasonal config. -/
theorem c2_witness :
    0 ≤ (calculateComprehensiveRisk defaultRiskInputs [] 1).index ∧
    (calculateComprehensiveRisk defaultRiskInputs [] 1).index ≤ 100 ∧
    (calculateComprehensiveRisk defaultRiskInputs [] 1).level =
      levelOfIndex (calculateComprehensiveRisk defaultRiskInputs [] 1).index :=
  c2_index_range_and_level defaultRiskInputs [] 1 (by norm_num [defaultRiskInputs])
    (by norm_num [defaultRiskInputs]) (by norm_num [defaultRiskInputs]) (by simp)

/-- Claim C3 evaluated at the failing input: at total 100, aqi 100,
epidemic 0, no festival, the seven breakdown categories are
21/14/17/11/28/7/0 and sum to 98, two short of totalPatients and outside
the claimed tolerance of 1. The other entry is identically zero because the
source subtracts the truncation of total times the summed renormalized
percentages (which is total itself) instead of the sum of the six truncated
category counts. -/
theorem c3_breakdown_sum_gap :
    (calculateBreakdown 100 100 0 false).respiratory +
    (calculateBreakdown 100 100 0 false).trauma +
    (calculateBreakdown 100 100 0 false).viralInfectious +
    (calculateBreakdown 100 100 0 false).cardiac +
    (calculateBreakdown 100 100 0 false).pediatric +
    (calculateBreakdown 100 100 0 false).icuCandidates +
    (calculateBreakdown 100 100 0 false).other = 98 ∧
    (calculateBreakdown 100 100 0 false).other = 0 ∧
    ((100 : ℤ) - 98).natAbs > 1 := by
  have e : calculateBreakdown 100 100 0 false =
      { respiratory := 21, trauma := 14, viralInfectious := 17, cardiac := 11,
        pediatric := 28, icuCandidates := 7, other := 0 } := by
    unfold calculateBreakdown
    norm_num [PatientBreakdown.mk.injEq]
    refine ⟨?_, ?_, ?_, ?_, ?_, ?_, ?_⟩
    · exact pytrunc_eq (by norm_num) (by norm_num) (by norm_num)
    · exact pytrunc_eq (by norm_num) (by norm_num) (by norm_num)
    · exact pytrunc_eq (by norm_num) (by norm_num) (by norm_num)
    · exact pytrunc_eq (by norm_num) (by norm_num) (by norm_num)
    · exact pytrunc_eq (by norm_num) (by norm_num) (by norm_num)
    · exact pytrunc_eq (by norm_num) (by norm_num) (by norm_num)
    · rw [sub_eq_zero]
      exact (pytrunc_eq (by norm_num) (by norm_num) (by norm_num)).symm
  rw [e]
  norm_num

theorem dayForecast_none_iff (context : ForecastContext) (hashFn : String → ℤ)
    (dayOffset : ℕ) (day : DateInfo) :
    dayForecast context hashFn dayOffset day = none ↔
      pytrunc ((preVarianceTotal context dayOffset day : ℚ) * 0.05) = 0 := by
  simp only [dayForecast]
  split_ifs with hv
  · simp only [true_iff]
    omega
  · simp only [reduceCtorEq, false_iff]
    omega

theorem dayForecast_some_confidence {context : ForecastContext} {hashFn : String → ℤ}
    {dayOffset : ℕ} {day : DateInfo} {fd : ForecastDay}
    (hfd : dayForecast context hashFn dayOffset day = some fd) :
    fd.confidence = calculateConfidence dayOffset context.epidemicSeverity
      (festivalFactor day.dayNum context.festivals) := by
  simp only [dayForecast] at hfd
  split_ifs at hfd
  all_goals
    simp only [Option.some.injEq] at hfd
    subst hfd
    rfl

theorem dayForecast_some_total {context : ForecastContext} {hashFn : String → ℤ}
    {dayOffset : ℕ} {day : DateInfo} {fd : ForecastDay}
    (hfd : dayForecast context hashFn dayOffset day = some fd) :
    fd.totalPatients = preVarianceTotal context dayOffset day +
      Int.fmod (hashFn day.dateStr)
        (2 * pytrunc ((preVarianceTotal context dayOffset day : ℚ) * 0.05)) -
      pytrunc ((preVarianceTotal context dayOffset day : ℚ) * 0.05) := by
  simp only [dayForecast] at hfd
  split_ifs at hfd
  all_goals
    simp only [Option.some.injEq] at hfd
    subst hfd
    rfl

theorem calculateConfidence_lower (dayOffset : ℕ) (epidemic f : ℚ) :
    60 ≤ calculateConfidence dayOffset epidemic f :=
  le_max_left _ _

theorem calculateConfidence_upper (dayOffset : ℕ) (epidemic f : ℚ) :
    calculateConfidence dayOffset epidemic f ≤ 95 :=
  max_le (by norm_num) (min_le_left _ _)

theorem calculateConfidence_antitone (epidemic : ℚ) {d1 d2 : ℕ} (h : d1 ≤ d2) :
    calculateConfidence d2 epidemic 1.0 ≤ calculateConfidence d1 epidemic 1.0 := by
  unfold calculateConfidence
  have hc : ((d1 : ℚ)) ≤ (d2 : ℚ) := by exact_mod_cast h
  have hf1 : ¬((1.5 : ℚ) < 1.0) := by norm_num
  have hf2 : ¬((1.2 : ℚ) < 1.0) := by norm_num
  simp only [if_neg hf1, if_neg hf2]
  split_ifs <;>
    exact max_le_max le_rfl (min_le_min le_rfl (by linarith))

theorem pre_baseline_day0 : preVarianceTotal baselineContext 0 day0 = 181 := by
  unfold preVarianceTotal
  have hdow : dowFactor day0.weekday = 1.15 := rfl
  have hfest : festivalFactor day0.dayNum baselineContext.festivals = 1.0 := rfl
  rw [hdow, hfest]
  refine pytrunc_eq ?_ ?_ ?_ <;>
    norm_num [baselineContext, aqiFactor, weatherFactor, epidemicFactor, momentumFactor]

theorem pre_baseline_day1 : preVarianceTotal baselineContext 1 day1 = 165 := by
  unfold preVarianceTotal
  have hdow : dowFactor day1.weekday = 1.05 := rfl
  have hfest : festivalFactor day1.dayNum baselineContext.festivals = 1.0 := rfl
  rw [hdow, hfest]
  refine pytrunc_eq ?_ ?_ ?_ <;>
    norm_num [baselineContext, aqiFactor, weatherFactor, epidemicFactor, momentumFactor]

theorem pre_festival_day0 : preVarianceTotal festivalTodayContext 0 day0 = 326 := by
  unfold preVarianceTotal
  have hdow : dowFactor day0.weekday = 1.15 := rfl
  have hfest : festivalFactor day0.dayNum festivalTodayContext.festivals = 1.8 := rfl
  rw [hdow, hfest]
  refine pytrunc_eq ?_ ?_ ?_ <;>
    norm_num [festivalTodayContext, baselineContext, aqiFactor, weatherFactor,
      epidemicFactor, momentumFactor]

theorem pre_festival_day1 : preVarianceTotal festivalTodayContext 1 day1 = 231 := by
  unfold preVarianceTotal
  have hdow : dowFactor day1.weekday = 1.05 := rfl
  have hfest : festivalFactor day1.dayNum festivalTodayContext.festivals = 1.4 := rfl
  rw [hdow, hfest]
  refine pytrunc_eq ?_ ?_ ?_ <;>
    norm_num [festivalTodayContext, baselineContext, aqiFactor, weatherFactor,
      epidemicFactor, momentumFactor]

theorem baseline_day0_isSome (hashFn : String → ℤ) :
    ∃ fd, dayForecast baselineContext hashFn 0 day0 = some fd := by
  have hne : dayForecast baselineContext hashFn 0 day0 ≠ none := by
    rw [Ne, dayForecast_none_iff, pre_baseline_day0]
    have h9 : pytrunc ((181 : ℤ) * 0.05 : ℚ) = 9 := by
      refine pytrunc_eq ?_ ?_ ?_ <;> norm_num
    push_cast at h9 ⊢
    omega
  exact Option.ne_none_iff_exists'.mp hne

theorem baseline_day1_isSome (hashFn : String → ℤ) :
    ∃ fd, dayForecast baselineContext hashFn 1 day1 = some fd := by
  have hne : dayForecast baselineContext hashFn 1 day1 ≠ none := by
    rw [Ne, dayForecast_none_iff, pre_baseline_day1]
    have h8 : pytrunc ((165 : ℤ) * 0.05 : ℚ) = 8 := by
      refine pytrunc_eq ?_ ?_ ?_ <;> norm_num
    push_cast at h8 ⊢
    omega
  exact Option.ne_none_iff_exists'.mp hne

theorem festival_day0_isSome (hashFn : String → ℤ) :
    ∃ fd, dayForecast festivalTodayContext hashFn 0 day0 = some fd := by
  have hne : dayForecast festivalTodayContext hashFn 0 day0 ≠ none := by
    rw [Ne, dayForecast_none_iff, pre_festival_day0]
    have h16 : pytrunc ((326 : ℤ) * 0.05 : ℚ) = 16 := by
      refine pytrunc_eq ?_ ?_ ?_ <;> norm_num
    push_cast at h16 ⊢
    omega
  exact Option.ne_none_iff_exists'.mp hne

theorem festival_day1_isSome (hashFn : String → ℤ) :
    ∃ fd, dayForecast festivalTodayContext hashFn 1 day1 = some fd := by
  have hne : dayForecast festivalTodayContext hashFn 1 day1 ≠ none := by
    rw [Ne, dayForecast_none_iff, pre_festival_day1]
    have h11 : pytrunc ((231 : ℤ) * 0.05 : ℚ) = 11 := by
      refine pytrunc_eq ?_ ?_ ?_ <;> norm_num
    push_cast at h11 ⊢
    omega
  exact Option.ne_none_iff_exists'.mp hne

/-- Claim C5 (amended): the risk, staffing and supply engines are total
functions of their inputs, but the forecaster is not: one forecast day
raises ZeroDivisionError (modeled by none) exactly when the truncated five
percent variance of the pre-variance predicted total is zero, that is, when
that total has magnitude below 20. -/
theorem c5_forecast_day_raises_iff_small_variance (context : ForecastContext)
    (hashFn : String → ℤ) (dayOffset : ℕ) (day : DateInfo) :
    dayForecast context hashFn dayOffset day = none ↔
      pytrunc ((preVarianceTotal context dayOffset day : ℚ) * 0.05) = 0 :=
  dayForecast_none_iff context hashFn dayOffset day

/-- Claim C5 counterexample: a well-typed context with patientSlope24h 0
(all other fields at the source defaults) makes the day-0 pre-variance
total 0, the variance 0, and the modulo in the variance step raises, so the
forecast returns no result and the forecaster is not total. -/
theorem c5_counterexample :
    generateForecast 1 zeroSlopeContext hashZero mondayClock = none := by
  have hpre : preVarianceTotal zeroSlopeContext 0 day0 = 0 := by
    unfold preVarianceTotal
    have hdow : dowFactor day0.weekday = 1.15 := rfl
    have hfest : festivalFactor day0.dayNum zeroSlopeContext.festivals = 1.0 := rfl
    rw [hdow, hfest]
    refine pytrunc_eq ?_ ?_ ?_ <;>
      norm_num [zeroSlopeContext, baselineContext, aqiFactor, weatherFactor,
        epidemicFactor, momentumFactor]
  have hnone : dayForecast zeroSlopeContext hashZero 0 day0 = none := by
    rw [dayForecast_none_iff, hpre]
    refine pytrunc_eq ?_ ?_ ?_ <;> norm_num
  have hrange : List.range 1 = [0] := rfl
  have hclock0 : mondayClock 0 = day0 := rfl
  simp only [generateForecast, hrange, List.mapM_cons, List.mapM_nil, hclock0, hnone,
    Option.bind_eq_bind, Option.none_bind]

/-- Claim C4 (amended): every confidence produced by the forecaster lies in
[60, 95]; and when the context has no festivals (so the festival factor is
constant 1.0 across the horizon) the confidence is non-increasing in the
day offset. With a nonempty festival list the festival penalty varies with
the horizon and confidence can increase (see the counterexample). -/
theorem c4_confidence_range_and_mono (context : ForecastContext) (hashFn : String → ℤ) :
    (∀ dayOffset day fd, dayForecast context hashFn dayOffset day = some fd →
      60 ≤ fd.confidence ∧ fd.confidence ≤ 95) ∧
    (context.festivals = [] →
      ∀ d1 d2 day1 day2 fd1 fd2, d1 ≤ d2 →
        dayForecast context hashFn d1 day1 = some fd1 →
        dayForecast context hashFn d2 day2 = some fd2 →
        fd2.confidence ≤ fd1.confidence) := by
  constructor
  · intro dayOffset day fd hfd
    rw [dayForecast_some_confidence hfd]
    exact ⟨calculateConfidence_lower _ _ _, calculateConfidence_upper _ _ _⟩
  · intro hfest d1 d2 dayA dayB fd1 fd2 hd h1 h2
    rw [dayForecast_some_confidence h1, dayForecast_some_confidence h2, hfest]
    simp only [festivalFactor]
    exact calculateConfidence_antitone _ hd

/-- Claim C4 counterexample: with a high-risk festival on the forecast
start date, the two-day forecast carries confidences 87 then 88: the
festival penalty is 8 on the festival day and only 4 one day later, so
confidence increases with the horizon and C4 as stated fails. -/
theorem c4_counterexample :
    Option.map (List.map ForecastDay.confidence)
      (generateForecast 2 festivalTodayContext hashZero mondayClock) = some [87, 88] ∧
    ¬((88 : ℚ) ≤ 87) := by
  obtain ⟨fd0, hfd0⟩ := festival_day0_isSome hashZero
  obtain ⟨fd1, hfd1⟩ := festival_day1_isSome hashZero
  have hconf0 : fd0.confidence = 87 := by
    rw [dayForecast_some_confidence hfd0]
    have hff : festivalFactor day0.dayNum festivalTodayContext.festivals = 1.8 := rfl
    have hes : festivalTodayContext.epidemicSeverity = 0 := rfl
    rw [hff, hes]
    norm_num [calculateConfidence, max_def, min_def]
  have hconf1 : fd1.confidence = 88 := by
    rw [dayForecast_some_confidence hfd1]
    have hff : festivalFactor day1.dayNum festivalTodayContext.festivals = 1.4 := rfl
    have hes : festivalTodayContext.epidemicSeverity = 0 := rfl
    rw [hff, hes]
    norm_num [calculateConfidence, max_def, min_def]
  refine ⟨?_, by norm_num⟩
  have hrange : List.range 2 = [0, 1] := rfl
  have hclock0 : mondayClock 0 = day0 := rfl
  have hclock1 : mondayClock 1 = day1 := rfl
  simp only [generateForecast, hrange, List.mapM_cons, List.mapM_nil, hclock0, hclock1,
    hfd0, hfd1, Option.bind_eq_bind, Option.some_bind, Option.map_some]
  simp [hconf0, hconf1]

/-- Claim C4 witness: the amended theorem applied to the baseline context
at day offsets 0 and 1 with a fixed hash function. -/
theorem c4_witness :
    Option.elim (dayForecast baselineContext hashZero 0 day0) False
      (fun fd => 60 ≤ fd.confidence ∧ fd.confidence ≤ 95) ∧
    Option.elim (dayForecast baselineContext hashZero 0 day0) False
      (fun fd1 => Option.elim (dayForecast baselineContext hashZero 1 day1) False
        (fun fd2 => fd2.confidence ≤ fd1.confidence)) := by
  obtain ⟨fd0, hfd0⟩ := baseline_day0_isSome hashZero
  obtain ⟨fd1, hfd1⟩ := baseline_day1_isSome hashZero
  rw [hfd0, hfd1]
  simp only [Option.elim_some]
  refine ⟨(c4_confidence_range_and_mono baselineContext hashZero).1 0 day0 fd0 hfd0, ?_⟩
  exact (c4_confidence_range_and_mono baselineContext hashZero).2 rfl 0 1 day0 day1 fd0 fd1
    (by norm_num) hfd0 hfd1

/-- Claim C7 (amended): for any fixed interpreter hash function the
forecast is a pure function of its inputs and the day total stays within
the truncated five percent variance band around the deterministic
pre-variance total; but the applied variance reads the interpreter string
hash of the date string, so the output is a function of the date string and
the process hash seed together, not of the date string alone (see the
counterexample). -/
theorem c7_variance_band {context : ForecastContext} {hashFn : String → ℤ}
    {dayOffset : ℕ} {day : DateInfo} {fd : ForecastDay}
    (hfd : dayForecast context hashFn dayOffset day = some fd)
    (hv : 0 < pytrunc ((preVarianceTotal context dayOffset day : ℚ) * 0.05)) :
    |fd.totalPatients - preVarianceTotal context dayOffset day| ≤
      pytrunc ((preVarianceTotal context dayOffset day : ℚ) * 0.05) := by
  rw [dayForecast_some_total hfd]
  have hm0 : 0 ≤ Int.fmod (hashFn day.dateStr)
      (2 * pytrunc ((preVarianceTotal context dayOffset day : ℚ) * 0.05)) :=
    Int.fmod_nonneg' _ (by omega)
  have hm1 : Int.fmod (hashFn day.dateStr)
      (2 * pytrunc ((preVarianceTotal context dayOffset day : ℚ) * 0.05)) <
      2 * pytrunc ((preVarianceTotal context dayOffset day : ℚ) * 0.05) :=
    Int.fmod_lt_of_pos _ (by omega)
  rw [abs_le]
  omega

/-- Claim C7 counterexample: two stand-in interpreter hash functions
(constant 0 and constant 1), with the context, dates and date strings
byte-identical, produce day totals 172 and 173: the variance is a function
of the runtime string-hash seed as well as the date string, so C7 as stated
fails. -/
theorem c7_counterexample :
    Option.map (List.map ForecastDay.totalPatients)
      (generateForecast 1 baselineContext hashZero mondayClock) = some [172] ∧
    Option.map (List.map ForecastDay.totalPatients)
      (generateForecast 1 baselineContext hashOne mondayClock) = some [173] ∧
    generateForecast 1 baselineContext hashZero mondayClock ≠
      generateForecast 1 baselineContext hashOne mondayClock := by
  obtain ⟨fd0, hfd0⟩ := baseline_day0_isSome hashZero
  obtain ⟨fd1, hfd1⟩ := baseline_day0_isSome hashOne
  have hvar : pytrunc (((181 : ℤ) : ℚ) * 0.05) = 9 := by
    refine pytrunc_eq ?_ ?_ ?_ <;> norm_num
  have htot0 : fd0.totalPatients = 172 := by
    rw [dayForecast_some_total hfd0, pre_baseline_day0, hvar]
    have : Int.fmod (hashZero day0.dateStr) (2 * 9) = 0 := rfl
    rw [this]
    norm_num
  have htot1 : fd1.totalPatients = 173 := by
    rw [dayForecast_some_total hfd1, pre_baseline_day0, hvar]
    have : Int.fmod (hashOne day0.dateStr) (2 * 9) = 1 := rfl
    rw [this]
    norm_num
  have hrange : List.range 1 = [0] := rfl
  have hclock0 : mondayClock 0 = day0 := rfl
  have e0 : Option.map (List.map ForecastDay.totalPatients)
      (generateForecast 1 baselineContext hashZero mondayClock) = some [172] := by
    simp only [generateForecast, hrange, List.mapM_cons, List.mapM_nil, hclock0, hfd0,
      Option.bind_eq_bind, Option.some_bind, Option.map_some]
    simp [htot0]
  have e1 : Option.map (List.map ForecastDay.totalPatients)
      (generateForecast 1 baselineContext hashOne mondayClock) = some [173] := by
    simp only [generateForecast, hrange, List.mapM_cons, List.mapM_nil, hclock0, hfd1,
      Option.bind_eq_bind, Option.some_bind, Option.map_some]
    simp [htot1]
  refine ⟨e0, e1, fun hcontra => ?_⟩
  rw [hcontra, e1] at e0
  simp at e0

/-- Claim C7 witness: the variance-band theorem applied to the baseline
context on day 0, whose pre-variance total is 181 and variance is 9. -/
theorem c7_witness :
    Option.elim (dayForecast baselineContext hashZero 0 day0) False
      (fun fd => |fd.totalPatients - preVarianceTotal baselineContext 0 day0| ≤
        pytrunc ((preVarianceTotal baselineContext 0 day0 : ℚ) * 0.05)) := by
  obtain ⟨fd0, hfd0⟩ := baseline_day0_isSome hashZero
  rw [hfd0]
  simp only [Option.elim_some]
  refine c7_variance_band hfd0 ?_
  rw [pre_baseline_day0]
  have hvar : pytrunc (((181 : ℤ) : ℚ) * 0.05) = 9 := by
    refine pytrunc_eq ?_ ?_ ?_ <;> norm_num
  omega

/-- Claim C6 counterexample: with a high-risk festival 3 days away listed
before a high-risk festival on the target day itself, the engine returns
1.2 (the factor of the first listed festival) while the nearest-festival
rule claimed by C6 gives 1.8, so C6 as stated fails. -/
theorem c6_counterexample :
    festivalFactor 10 twoFestivals = 1.2 ∧
    festivalFactorNearest 10 twoFestivals = 1.8 ∧
    festivalFactor 10 twoFestivals ≠ festivalFactorNearest 10 twoFestivals := by
  have e1 : festivalFactor 10 twoFestivals = 1.2 := rfl
  have e2 : festivalFactorNearest 10 twoFestivals = 1.8 := rfl
  refine ⟨e1, e2, ?_⟩
  rw [e1, e2]
  norm_num

/-- Claim C6 (amended): the festival factor is determined by the first
festival in list order that parses, is flagged high-risk and lies within 3
days of the target date (same day 1.8, one day 1.4, otherwise 1.2); earlier
entries that are low-risk, unparseable, or farther than 3 days are skipped,
and when no entry qualifies the factor is 1.0. -/
theorem c6_first_qualifying_festival (targetDate : ℤ) (pre post : List Festival)
    (f : Festival) (d : ℤ) (hrisk : f.highRisk = true) (hdate : f.fdate = some d)
    (hnear : (d - targetDate).natAbs ≤ 3)
    (hpre : ∀ g ∈ pre, g.highRisk = true → ∀ dg, g.fdate = some dg →
      3 < (dg - targetDate).natAbs) :
    festivalFactor targetDate (pre ++ f :: post) =
      (if (d - targetDate).natAbs = 0 then 1.8
       else if (d - targetDate).natAbs = 1 then 1.4 else 1.2) := by
  obtain ⟨fdte, frisk⟩ := f
  simp only at hrisk hdate
  subst hrisk
  subst hdate
  induction pre with
  | nil =>
    simp only [List.nil_append, festivalFactor]
    split_ifs <;> rfl
  | cons g pre ih =>
    have hg := hpre g (List.mem_cons_self g pre)
    have htail : ∀ x ∈ pre, x.highRisk = true → ∀ dx, x.fdate = some dx →
        3 < (dx - targetDate).natAbs :=
      fun x hx => hpre x (List.mem_cons_of_mem g hx)
    obtain ⟨gdate, grisk⟩ := g
    cases gdate with
    | none =>
      simpa only [List.cons_append, festivalFactor] using ih htail
    | some dg =>
      cases grisk with
      | false =>
        simpa only [List.cons_append, festivalFactor, Bool.false_eq_true,
          if_false] using ih htail
      | true =>
        have hgt : 3 < (dg - targetDate).natAbs := hg rfl dg rfl
        have h0 : ¬((dg - targetDate).natAbs = 0) := by omega
        have h1 : ¬((dg - targetDate).natAbs = 1) := by omega
        have h3 : ¬((dg - targetDate).natAbs ≤ 3) := by omega
        simp only [List.cons_append, festivalFactor, h0, h1, h3, if_true, if_false]
        simpa only [if_false] using ih htail

/-- Claim C6 witness: the amended theorem applied to a list whose first
high-risk festival lies 10 days out and whose second lies 2 days out,
giving factor 1.2. -/
theorem c6_witness :
    festivalFactor 0 ([{ fdate := some 10, highRisk := true }] ++
      { fdate := some 2, highRisk := true } :: []) =
      (if ((2 : ℤ) - 0).natAbs = 0 then 1.8
       else if ((2 : ℤ) - 0).natAbs = 1 then 1.4 else 1.2) := by
  refine c6_first_qualifying_festival 0 [{ fdate := some 10, highRisk := true }] []
    { fdate := some 2, highRisk := true } 2 rfl rfl (by decide) ?_
  intro g hg hr dg hdg
  simp only [List.mem_singleton] at hg
  subst hg
  simp only [Option.some.injEq] at hdg
  subst hdg
  decide

theorem mul4_mono {x1 x2 c m1 m2 a1 a2 : ℚ} (hx0 : 0 ≤ x1) (hx : x1 ≤ x2) (hc : 0 ≤ c)
    (hm0 : 0 ≤ m1) (hm : m1 ≤ m2) (ha0 : 0 ≤ a1) (ha : a1 ≤ a2) :
    x1 * c * m1 * a1 ≤ x2 * c * m2 * a2 := by
  have h1 : x1 * c ≤ x2 * c := mul_le_mul_of_nonneg_right hx hc
  have h10 : 0 ≤ x1 * c := mul_nonneg hx0 hc
  have h20 : 0 ≤ x2 * c := mul_nonneg (hx0.trans hx) hc
  have h2 : x1 * c * m1 ≤ x2 * c * m2 := mul_le_mul h1 hm hm0 h20
  have h40 : 0 ≤ x2 * c * m2 := mul_nonneg h20 (hm0.trans hm)
  exact mul_le_mul h2 ha ha0 h40

theorem supplyMultiplier_pos (fw : Bool) : 0 < supplyMultiplier fw := by
  cases fw <;> norm_num [supplyMultiplier]

theorem supplyMultiplier_mono {fw1 fw2 : Bool} (h : fw1 = true → fw2 = true) :
    supplyMultiplier fw1 ≤ supplyMultiplier fw2 := by
  cases fw1 with
  | false => cases fw2 <;> norm_num [supplyMultiplier]
  | true => rw [h rfl]

theorem aqiMultiplier_one_le (a : ℚ) : 1 ≤ aqiMultiplier a := by
  unfold aqiMultiplier
  split_ifs <;> norm_num

theorem aqiMultiplier_mono {a1 a2 : ℚ} (h : a1 ≤ a2) :
    aqiMultiplier a1 ≤ aqiMultiplier a2 := by
  unfold aqiMultiplier
  split_ifs <;> linarith

theorem epidemicMultiplier_pos {e : ℚ} (h : 0 ≤ e) : 0 < epidemicMultiplier e := by
  unfold epidemicMultiplier
  nlinarith

theorem epidemicMultiplier_mono {e1 e2 : ℚ} (h : e1 ≤ e2) :
    epidemicMultiplier e1 ≤ epidemicMultiplier e2 := by
  unfold epidemicMultiplier
  linarith

/-- Claim C8: each of the five required supply quantities is monotone
non-decreasing jointly in the first forecast day totalPatients and
respiratory count, in the festival-window flag, in the epidemic index and
in the AQI level, holding the other inputs fixed, provided the counts and
the epidemic index are nonnegative as their declared domains require. -/
theorem c8_supply_required_monotone
    (day1 day2 : SupplyForecastDay) (rest1 rest2 : List SupplyForecastDay)
    (stock : Option (List (String × ℤ))) (fw1 fw2 : Bool) (aqi1 aqi2 epi1 epi2 : ℚ)
    (ht0 : 0 ≤ day1.totalPatients) (ht : day1.totalPatients ≤ day2.totalPatients)
    (hr0 : 0 ≤ day1.respiratory) (hr : day1.respiratory ≤ day2.respiratory)
    (hfw : fw1 = true → fw2 = true) (haqi : aqi1 ≤ aqi2)
    (hepi0 : 0 ≤ epi1) (hepi : epi1 ≤ epi2) :
    List.Forall₂ (fun a b => a.required ≤ b.required)
      (recommendSupplies (day1 :: rest1) stock fw1 aqi1 epi1)
      (recommendSupplies (day2 :: rest2) stock fw2 aqi2 epi2) := by
  have hm0 : 0 ≤ supplyMultiplier fw1 := (supplyMultiplier_pos fw1).le
  have hm : supplyMultiplier fw1 ≤ supplyMultiplier fw2 := supplyMultiplier_mono hfw
  have ha0 : (0 : ℚ) ≤ aqiMultiplier aqi1 := le_trans zero_le_one (aqiMultiplier_one_le aqi1)
  have ha : aqiMultiplier aqi1 ≤ aqiMultiplier aqi2 := aqiMultiplier_mono haqi
  have he0 : 0 ≤ epidemicMultiplier epi1 := (epidemicMultiplier_pos hepi0).le
  have he : epidemicMultiplier epi1 ≤ epidemicMultiplier epi2 := epidemicMultiplier_mono hepi
  have hrq0 : (0 : ℚ) ≤ (day1.respiratory : ℚ) := by exact_mod_cast hr0
  have hrq : (day1.respiratory : ℚ) ≤ (day2.respiratory : ℚ) := by exact_mod_cast hr
  have htq0 : (0 : ℚ) ≤ (day1.totalPatients : ℚ) := by exact_mod_cast ht0
  have htq : (day1.totalPatients : ℚ) ≤ (day2.totalPatients : ℚ) := by exact_mod_cast ht
  simp only [recommendSupplies]
  refine List.Forall₂.cons ?_ (List.Forall₂.cons ?_ (List.Forall₂.cons ?_
    (List.Forall₂.cons ?_ (List.Forall₂.cons ?_ List.Forall₂.nil)))) <;> dsimp only
  · exact pytrunc_mono (mul4_mono hrq0 hrq (by norm_num) hm0 hm ha0 ha)
  · exact pytrunc_mono (mul4_mono htq0 htq (by norm_num) hm0 hm ha0 ha)
  · exact pytrunc_mono (mul4_mono htq0 htq (by norm_num) hm0 hm he0 he)
  · exact pytrunc_mono (mul4_mono hrq0 hrq (by norm_num) hm0 hm ha0 ha)
  · refine pytrunc_mono ?_
    have h1 : (day1.totalPatients : ℚ) * 0.5 ≤ (day2.totalPatients : ℚ) * 0.5 :=
      mul_le_mul_of_nonneg_right htq (by norm_num)
    have h20 : (0 : ℚ) ≤ (day2.totalPatients : ℚ) * 0.5 :=
      mul_nonneg (htq0.trans htq) (by norm_num)
    exact mul_le_mul h1 he he0 h20

/-- Claim C8 witness: the monotonicity theorem applied to the concrete
forecast days (150, 30) and (151, 31) with festival window off/on, AQI 100
and 201, and epidemic index 0 and 1. -/
theorem c8_witness :
    List.Forall₂ (fun a b => a.required ≤ b.required)
      (recommendSupplies [{ totalPatients := 150, respiratory := 30 }] none false 100 0)
      (recommendSupplies [{ totalPatients := 151, respiratory := 31 }] none true 201 1) :=
  c8_supply_required_monotone
    { totalPatients := 150, respiratory := 30 } { totalPatients := 151, respiratory := 31 }
    [] [] none false true 100 201 0 1 (by norm_num) (by norm_num) (by norm_num)
    (by norm_num) (fun h => by simp at h) (by norm_num) (by norm_num) (by norm_num)

/-- Claim C9: every staffing plan returned by recommend_staffing satisfies
doctors = icuDoctors + erDoctors + generalDoctors and nurses = icuNurses +
erNurses + generalNurses, and every segment respects its floor:
icuDoctors at least 2, icuNurses 3, erDoctors 3, erNurses 5,
generalDoctors 4, generalNurses 8. -/
theorem c9_staffing_sums_and_floors (patients : ℤ)
    (icuRiskScore epidemicIndex aqiLevel : ℚ) (respiratoryCases : ℤ) :
    ∀ plan ∈ recommendStaffing patients icuRiskScore epidemicIndex aqiLevel respiratoryCases,
      plan.doctors = plan.icuDoctors + plan.erDoctors + plan.generalDoctors ∧
      plan.nurses = plan.icuNurses + plan.erNurses + plan.generalNurses ∧
      2 ≤ plan.icuDoctors ∧ 3 ≤ plan.icuNurses ∧ 3 ≤ plan.erDoctors ∧
      5 ≤ plan.erNurses ∧ 4 ≤ plan.generalDoctors ∧ 8 ≤ plan.generalNurses := by
  intro plan hplan
  simp only [recommendStaffing, List.mem_singleton] at hplan
  subst hplan
  exact ⟨rfl, rfl, le_max_left _ _, le_max_left _ _, le_max_left _ _, le_max_left _ _,
    le_max_left _ _, le_max_left _ _⟩

/-- Claim C9 witness: the staffing invariants at predicted patients 300,
ICU risk 90, epidemic index 2, AQI 100. -/
theorem c9_witness :
    (staffingPlanOf 300 90 2 100 0).doctors = (staffingPlanOf 300 90 2 100 0).icuDoctors +
      (staffingPlanOf 300 90 2 100 0).erDoctors + (staffingPlanOf 300 90 2 100 0).generalDoctors ∧
    (staffingPlanOf 300 90 2 100 0).nurses = (staffingPlanOf 300 90 2 100 0).icuNurses +
      (staffingPlanOf 300 90 2 100 0).erNurses + (staffingPlanOf 300 90 2 100 0).generalNurses ∧
    2 ≤ (staffingPlanOf 300 90 2 100 0).icuDoctors ∧
    3 ≤ (staffingPlanOf 300 90 2 100 0).icuNurses ∧
    3 ≤ (staffingPlanOf 300 90 2 100 0).erDoctors ∧
    5 ≤ (staffingPlanOf 300 90 2 100 0).erNurses ∧
    4 ≤ (staffingPlanOf 300 90 2 100 0).generalDoctors ∧
    8 ≤ (staffingPlanOf 300 90 2 100 0).generalNurses :=
  c9_staffing_sums_and_floors 300 90 2 100 0 (staffingPlanOf 300 90 2 100 0)
    (List.mem_singleton.mpr rfl)

/-- Claim C10: on an empty forecast list recommend_supplies ignores all
other arguments and returns the fixed default list: Oxygen Cylinders 30,
N95 Masks 200, IV Fluids 100, Nebulizers 15, PPE Kits 50, all with status
OK (and no notes field). -/
theorem c10_empty_forecast_defaults (currentStock : Option (List (String × ℤ)))
    (festivalWindow : Bool) (aqiLevel epidemicIndex : ℚ) :
    recommendSupplies [] currentStock festivalWindow aqiLevel epidemicIndex =
      [{ item := "Oxygen Cylinders", required := 30, status := "OK",
         priority := "MEDIUM", notes := none },
       { item := "N95 Masks", required := 200, status := "OK",
         priority := "MEDIUM", notes := none },
       { item := "IV Fluids", required := 100, status := "OK",
         priority := "MEDIUM", notes := none },
       { item := "Nebulizers", required := 15, status := "OK",
         priority := "LOW", notes := none },
       { item := "PPE Kits", required := 50, status := "OK",
         priority := "LOW", notes := none }] := rfl

end HospAgent
